import Mathlib

/-
Verification of the golf swing statistics report generators.

Two pipelines are modelled, straight from the source:
  - variant A, golf_swing_stats.py (process_golf_stats): exclusion-list
    inclusion flags, an AVERAGEIF average row and a SUMPRODUCT-based sample
    standard deviation row;
  - variant B, golf_swing_stats_alt1.py (process_swing_caddie_data): an
    in-sheet toggle column, per-cell IF formulas and one zero-aware
    AVERAGEIF summary row.
Strings are built with the same concatenation structure as the source
f-strings; numerics are modelled as integers (only their decimal rendering
enters formula text); the file system and the spreadsheet writer are
abstracted as in the spec (read rows, write cells).
-/

namespace GolfStats

/-- Variant A input record: one row of the CSV read by process_golf_stats,
with the identifier column (header No.), the Date and EQ label columns and
the numeric metric cells in header order. -/
structure RecordA where
  id : String
  date : String
  equip : String
  vals : List Int
  deriving DecidableEq

/-- Line 21 of golf_swing_stats.py: df = df[df[No.] != AVG].copy() keeps
exactly the rows whose identifier differs from the verbatim string AVG. -/
def loadA (rows : List RecordA) : List RecordA :=
  rows.filter (fun r => r.id != "AVG")

/-- One pass of the exclusion loop, lines 27 to 29: df.loc[df[No.] ==
row_num, Include] = False sets the flag of every record whose identifier
equals the excluded value to false and touches nothing else. -/
def markExcluded (flags : List (String × Bool)) (x : String) : List (String × Bool) :=
  flags.map (fun p => if p.1 == x then (p.1, false) else p)

/-- Lines 24 to 29: the Include column starts all true, then each entry of
the exclusion list marks its matching records false. The booleans, in row
order, are the Inclusion Flag column. -/
def computeFlags (rows : List RecordA) (excluded : List String) : List Bool :=
  (excluded.foldl markExcluded (rows.map (fun r => (r.id, true)))).map (fun p => p.2)

/-- Lines 49 to 59: row_idx starts at 2 and is incremented once per data
row, so after the write loop it points at the first free sheet row. -/
def nextRowIdx : List RecordA → Nat → Nat
  | [], r => r
  | _ :: rest, r => nextRowIdx rest (r + 1)

/-- Line 62: avg_row is the value of row_idx after all data rows are
written. -/
def avgRowOf (input : List RecordA) : Nat :=
  nextRowIdx (loadA input) 2

/-- Line 82: stdev_row = avg_row + 1, laid out directly below the AVG row. -/
def stdevRowOf (input : List RecordA) : Nat :=
  avgRowOf input + 1

/-- Line 72: the AVERAGEIF formula written in the AVG row for the numeric
column at spreadsheet letter colLetter. -/
def avgFormulaA (avgRow : Nat) (colLetter : String) : String :=
  "=AVERAGEIF($D$2:$D$" ++ toString (avgRow - 1) ++ ",\"Yes\"," ++
    colLetter ++ "2:" ++ colLetter ++ toString (avgRow - 1) ++ ")"

/-- Lines 93 to 103: the non-array sample standard deviation formula of the
STDEV row, built from data_range = L2:L(avg_row-1), avg_cell = L(avg_row)
and include_range = $D$2:$D$(avg_row-1). -/
def stdevFormulaA (avgRow : Nat) (colLetter : String) : String :=
  "=SQRT(SUMPRODUCT(((" ++ colLetter ++ "2:" ++ colLetter ++ toString (avgRow - 1) ++
    "-" ++ colLetter ++ toString avgRow ++ ")^2),--($D$2:$D$" ++ toString (avgRow - 1) ++
    "=\"Yes\"))/(SUMPRODUCT(--($D$2:$D$" ++ toString (avgRow - 1) ++ "=\"Yes\"))-1))"

/-- Identifier column of the grid a variant A run writes: the kept data
rows in order, then the AVG summary row (line 63) and the STDEV summary row
(line 83). -/
def outputIdsA (input : List RecordA) : List String :=
  (loadA input).map (fun r => r.id) ++ ["AVG", "STDEV"]

/-- Line 21 applied to a regenerated grid: loading strips exactly the rows
whose identifier column holds the verbatim string AVG. -/
def reloadIdsA (ids : List String) : List String :=
  ids.filter (fun s => s != "AVG")

/-- ASCII upper casing of one character, the effect str.upper() has on the
identifiers this tool compares with AVG. -/
def upperChar (c : Char) : Char :=
  if c.isLower then Char.ofNat (c.toNat - 32) else c

/-- Leading and trailing whitespace removal, the effect of str.strip(). -/
def trimChars (cs : List Char) : List Char :=
  ((cs.dropWhile Char.isWhitespace).reverse.dropWhile Char.isWhitespace).reverse

/-- Line 19 of golf_swing_stats_alt1.py normalizes the first column with
astype(str).str.strip().str.upper() before comparing against AVG. -/
def normalizeId (s : String) : String :=
  String.mk ((trimChars s.data).map upperChar)

/-- Line 19: variant B keeps exactly the rows whose normalized first column
value differs from AVG. -/
def stripB (ids : List String) : List String :=
  ids.filter (fun s => normalizeId s != "AVG")

/-- A loaded cell of variant B as the rewriting loop, lines 42 to 51, sees
it: a Python string, a number or a missing value (pd.isna). -/
inductive CellB where
  | str (s : String)
  | num (v : Int)
  | missing
  deriving DecidableEq

/-- The literal lines 46 to 51 place in the else branch of the IF: strings
quoted, missing values replaced by 0, numbers printed literally. -/
def cellLit : CellB → String
  | CellB.str s => "\"" ++ s ++ "\""
  | CellB.num v => toString v
  | CellB.missing => "0"

/-- Lines 43 to 51: the formula written over a data cell, with the absolute
toggle reference $B(excel_row_num) of its own row, one branch per original
cell shape as in the source. -/
def ifFormulaB (excelRowNum : Nat) : CellB → String
  | CellB.str s => "=IF($B" ++ toString excelRowNum ++ "=1, 0, \"" ++ s ++ "\")"
  | CellB.missing => "=IF($B" ++ toString excelRowNum ++ "=1, 0, 0)"
  | CellB.num v => "=IF($B" ++ toString excelRowNum ++ "=1, 0, " ++ toString v ++ ")"

/-- Lines 41 to 53: the inner loop runs over col_idx in range(2, num_cols),
rewriting every cell of the row except the identifier column 0 and the
toggle column 1. colIdx is the position of the first cell of cells. -/
def rewriteCells (excelRowNum : Nat) : Nat → List CellB → List (Nat × String)
  | _, [] => []
  | colIdx, v :: rest =>
    if 2 ≤ colIdx then
      (colIdx, ifFormulaB excelRowNum v) :: rewriteCells excelRowNum (colIdx + 1) rest
    else
      rewriteCells excelRowNum (colIdx + 1) rest

/-- The formulas written over one data row, columns counted from 0. -/
def rewriteRowB (excelRowNum : Nat) (row : List CellB) : List (Nat × String) :=
  rewriteCells excelRowNum 0 row

/-- Spreadsheet meaning of IF(toggle=1, 0, elseVal). -/
def denoteIf (toggle : Int) (elseVal : CellB) : CellB :=
  if toggle = 1 then CellB.num 0 else elseVal

/-- The value the else literal of the generated formula denotes: the
original value, with a missing original replaced by the neutral 0. -/
def origAsLit : CellB → CellB
  | CellB.missing => CellB.num 0
  | v => v

/-- Bijective base 26 spelling of a zero based column index, as
xlsxwriter.utility.xl_col_to_name produces it: 0 is A, 25 is Z, 26 is AA.
The first argument is fuel; colName supplies enough of it. -/
def colNameAux : Nat → Nat → String
  | 0, _ => ""
  | fuel + 1, n =>
    if n < 26 then String.singleton (Char.ofNat (65 + n))
    else colNameAux fuel (n / 26 - 1) ++ String.singleton (Char.ofNat (65 + n % 26))

/-- Column letter of a zero based column index. -/
def colName (n : Nat) : String :=
  colNameAux (n + 1) n

/-- Python range(a, b): the naturals from a up to but excluding b. -/
def pyRange (a b : Nat) : List Nat :=
  List.range' a (b - a)

/-- Line 64: the zero aware AVERAGEIF of variant B over column colIdx, rows
2 to numRows + 1. -/
def avgFormulaB (numRows colIdx : Nat) : String :=
  "=AVERAGEIF(" ++ colName colIdx ++ "2:" ++ colName colIdx ++ toString (numRows + 1) ++
    ", \"<>0\")"

/-- Lines 59 to 65: the summary loop runs over col_idx in range(1,
num_cols), writing one AVERAGEIF per column after the first. -/
def summaryFormulasB (numRows numCols : Nat) : List (Nat × String) :=
  (pyRange 1 numCols).map (fun c => (c, avgFormulaB numRows c))

/-- Column kinds named by the spec: identifier, toggle, date, label and
numeric metric columns. -/
inductive ColType where
  | ident
  | toggle
  | date
  | label
  | numeric
  deriving DecidableEq

/-- Line 22: df.insert(1, I, 0) places a new column at position 1, directly
after the first column, for any column list. -/
def insertAtOne {α : Type} (x : α) (cols : List α) : List α :=
  cols.take 1 ++ [x] ++ cols.drop 1

/-- The header row after the toggle column named I is inserted. -/
def insertToggleHeaders (cols : List String) : List String :=
  insertAtOne "I" cols

/-- One data row after the toggle cell, initialized to the literal 0, is
inserted. -/
def insertToggleRow (row : List CellB) : List CellB :=
  insertAtOne (CellB.num 0) row

/-- The column type schema after the toggle column is inserted. -/
def insertToggleSchema (schema : List ColType) : List ColType :=
  insertAtOne ColType.toggle schema

/-- Column schema of the swing caddie input used in the examples:
identifier, date, equipment label, one numeric metric. -/
def sampleSchemaB : List ColType :=
  [ColType.ident, ColType.date, ColType.label, ColType.numeric]

/-- Outcome classes of a run; NotFound carries the message printed for a
missing input path. -/
inductive RunError where
  | NotFound (msg : String)
  | Other (msg : String)
  deriving DecidableEq

/-- Abstract file system: a path either holds a parsed record table or
nothing. -/
def FileSys : Type :=
  String → Option (List RecordA)

/-- Lines 163 to 176 of golf_swing_stats.py: pd.read_csv is the first step
of process_golf_stats, a missing path raises FileNotFoundError, main
catches it and prints the message of line 173; the workbook is saved only
at the end of a successful run, whose grid identifier column this model
returns. -/
def runMainA (fs : FileSys) (inputFile : String) : Except RunError (List String) :=
  match fs inputFile with
  | none => Except.error (RunError.NotFound ("Error: Could not find file " ++ inputFile))
  | some rows => Except.ok (outputIdsA rows)

/-- Lines 73 to 78 of golf_swing_stats_alt1.py: main checks os.path.exists
before any processing and returns after printing the message of line 77; on
success the run strips the AVG rows and writes the sheet, whose data row
identifiers this model returns. -/
def runMainB (fs : FileSys) (inputFile : String) : Except RunError (List String) :=
  match fs inputFile with
  | none => Except.error (RunError.NotFound ("Error: The file " ++ inputFile ++ " was not found."))
  | some rows => Except.ok (stripB (rows.map (fun r => r.id)))

/-- Lines 128 to 130: the success summary prints len(df) processed rows,
sum(~Include) excluded rows and sum(Include) included rows. -/
def runSummaryA (input : List RecordA) (excluded : List String) : Nat × Nat × Nat :=
  ((loadA input).length,
    ((computeFlags (loadA input) excluded).filter (fun b => !b)).length,
    ((computeFlags (loadA input) excluded).filter (fun b => b)).length)

/-- Ten records with identifiers 1 to 10 and one numeric metric, the
concrete scenario of the spec. -/
def sampleRows10 : List RecordA :=
  (List.range 10).map (fun i => RecordA.mk (toString (i + 1)) "2024-01-01" "6I" [90 + Int.ofNat i])

/-- Two plain data records, identifiers 1 and 2. -/
def rowsTwoIds : List RecordA :=
  [RecordA.mk "1" "2024-01-01" "6I" [90], RecordA.mk "2" "2024-01-01" "6I" [91]]

/-- Two records, identifiers 1 and 8, for the exclusion scenario. -/
def rowsOneEight : List RecordA :=
  [RecordA.mk "1" "2024-01-01" "6I" [90], RecordA.mk "8" "2024-01-01" "6I" [91]]

/-- A record whose identifier is the lower case string avg. -/
def lowercaseAvgRecord : RecordA :=
  RecordA.mk "avg" "2024-01-01" "6I" [90]

/-- One loaded variant B row: identifier, toggle cell, a number, a label, a
missing cell. -/
def sampleRowB : List CellB :=
  [CellB.str "1", CellB.num 0, CellB.num 95, CellB.str "Driver", CellB.missing]

/-- A file system with no files. -/
def emptyFileSys : FileSys :=
  fun _ => none

/-- The write loop advances row_idx by one per record. -/
theorem nextRowIdx_eq (l : List RecordA) : ∀ r : Nat, nextRowIdx l r = r + l.length := by
  induction l with
  | nil => intro r; simp [nextRowIdx]
  | cons a t ih =>
    intro r
    simp only [nextRowIdx, ih, List.length_cons]
    omega

theorem avgRowOf_eq (input : List RecordA) : avgRowOf input = (loadA input).length + 2 := by
  simp only [avgRowOf, nextRowIdx_eq]
  omega

theorem length_filter_add_compl {α : Type} (p : α → Bool) (l : List α) :
    (l.filter p).length + (l.filter (fun a => !(p a))).length = l.length := by
  induction l with
  | nil => rfl
  | cons a t ih =>
    cases h : p a <;> simp only [List.filter, h, Bool.not_true, Bool.not_false, List.length_cons] <;>
      omega

/-- Specializing Nat subtraction: the row ranges end at avg_row - 1. -/
theorem sub_one_eq (n : Nat) : n + 2 - 1 = n + 1 := rfl

/-- Unrolling the exclusion loop: a flag ends false exactly when some entry
of the list matched its identifier. -/
theorem foldl_markExcluded (excluded : List String) (flags : List (String × Bool)) :
    excluded.foldl markExcluded flags =
      flags.map (fun p => (p.1, p.2 && !(excluded.contains p.1))) := by
  induction excluded generalizing flags with
  | nil => simp
  | cons x xs ih =>
    rw [List.foldl_cons, ih, markExcluded, List.map_map]
    apply List.map_congr_left
    intro p _
    by_cases hp : p.1 = x
    · simp [Function.comp, hp, List.contains_cons]
    · simp [Function.comp, hp, List.contains_cons, beq_eq_false_iff_ne.mpr hp]

/-- Closed form of the Inclusion Flag column. -/
theorem computeFlags_eq (rows : List RecordA) (excluded : List String) :
    computeFlags rows excluded = rows.map (fun r => !(excluded.contains r.id)) := by
  rw [computeFlags, foldl_markExcluded, List.map_map, List.map_map]
  rfl

/-- One flag per record. -/
theorem computeFlags_length (rows : List RecordA) (excluded : List String) :
    (computeFlags rows excluded).length = rows.length := by
  rw [computeFlags_eq, List.length_map]

/-- The rewriting loop only ever writes at column indices 2 and above. -/
theorem rewriteCells_ge_two (rnum : Nat) (row : List CellB) :
    ∀ start k s, (k, s) ∈ rewriteCells rnum start row → 2 ≤ k := by
  induction row with
  | nil =>
    intro start k s h
    simp [rewriteCells] at h
  | cons v rest ih =>
    intro start k s h
    rw [rewriteCells] at h
    by_cases hs : 2 ≤ start
    · rw [if_pos hs] at h
      rcases List.mem_cons.mp h with h1 | h2
      · have hk : k = start := (Prod.mk.injEq _ _ _ _).mp h1 |>.1
        omega
      · exact ih (start + 1) k s h2
    · rw [if_neg hs] at h
      exact ih (start + 1) k s h

/-- Every cell at column index 2 or above receives its IF formula. -/
theorem rewriteCells_mem (rnum : Nat) (row : List CellB) :
    ∀ start c v, row.get? c = some v → 2 ≤ start + c →
      (start + c, ifFormulaB rnum v) ∈ rewriteCells rnum start row := by
  induction row with
  | nil =>
    intro start c v hv _
    simp at hv
  | cons a rest ih =>
    intro start c v hv hge
    cases c with
    | zero =>
      have ha : a = v := Option.some.inj hv
      have hs : 2 ≤ start := by omega
      rw [rewriteCells, if_pos hs, ha]
      exact List.mem_cons_self _ _
    | succ c =>
      have h2 : start + 1 + c = start + (c + 1) := by omega
      have hmem := ih (start + 1) c v hv (by omega)
      rw [h2] at hmem
      rw [rewriteCells]
      by_cases hs : 2 ≤ start
      · rw [if_pos hs]
        exact List.mem_cons_of_mem _ hmem
      · rw [if_neg hs]
        exact hmem

/-- Merging the literal quote into the preceding formula text. -/
theorem string_quote_merge (r : String) : "=1, 0, " ++ ("\"" ++ r) = "=1, 0, \"" ++ r := by
  rw [← String.append_assoc]
  rfl

/-- The closing quote and parenthesis of a quoted else branch. -/
theorem string_close_quote : ("\"" : String) ++ ")" = "\")" := rfl

/-- The neutral 0 followed by the closing parenthesis. -/
theorem string_zero_close : ("0" : String) ++ ")" = "0)" := rfl

/-- All three branches of the source agree with the single IF shape whose
else literal is cellLit. -/
theorem ifFormulaB_eq_lit (rnum : Nat) (v : CellB) :
    ifFormulaB rnum v = "=IF($B" ++ toString rnum ++ "=1, 0, " ++ cellLit v ++ ")" := by
  cases v with
  | str s =>
    simp only [ifFormulaB, cellLit, String.append_assoc, string_close_quote, string_quote_merge]
  | num v => rfl
  | missing =>
    simp only [ifFormulaB, cellLit, String.append_assoc, string_zero_close]
    rfl

/-- Claim C1: with n data rows after AVG stripping, the AVG row formula of
the numeric column at letter L is the AVERAGEIF whose absolute criteria
range is $D$2:$D$(n+1), whose criterion is Yes and whose value range is
L2:L(n+1); with 10 data rows it references rows 2 to 11 with criteria range
$D$2:$D$11. -/
theorem averageif_formula_spec (input : List RecordA) (L : String) :
    (avgFormulaA (avgRowOf input) L =
      "=AVERAGEIF($D$2:$D$" ++ toString ((loadA input).length + 1) ++ ",\"Yes\"," ++
        L ++ "2:" ++ L ++ toString ((loadA input).length + 1) ++ ")") ∧
    ((loadA input).length = 10 →
      avgFormulaA (avgRowOf input) L =
        "=AVERAGEIF($D$2:$D$" ++ "11" ++ ",\"Yes\"," ++ L ++ "2:" ++ L ++ "11" ++ ")") := by
  constructor
  · rw [avgFormulaA, avgRowOf_eq, sub_one_eq]
  · intro h10
    rw [avgFormulaA, avgRowOf_eq, h10]
    exact rfl

/-- Witness for claim C1: the ten record scenario at column letter E. -/
theorem averageif_formula_spec_witness :
    avgFormulaA (avgRowOf sampleRows10) "E" =
      "=AVERAGEIF($D$2:$D$" ++ "11" ++ ",\"Yes\"," ++ "E" ++ "2:" ++ "E" ++ "11" ++ ")" :=
  (averageif_formula_spec sampleRows10 "E").2 rfl

/-- Claim C2: the STDEV row formula of the column at letter L is the single
non-array expression SQRT(SUMPRODUCT((L2:L(n+1) - L(n+2))^2, --($D$2:$D$(n+1)
= Yes)) / (SUMPRODUCT(--($D$2:$D$(n+1) = Yes)) - 1)), using the 0/1
indicator coerced from the flag range comparison and referencing the same
column cell of the AVG row, row n+2, which is laid out before the STDEV
row. -/
theorem stdev_formula_spec (input : List RecordA) (L : String) :
    stdevFormulaA (avgRowOf input) L =
      "=SQRT(SUMPRODUCT(((" ++ L ++ "2:" ++ L ++ toString ((loadA input).length + 1) ++
        "-" ++ L ++ toString ((loadA input).length + 2) ++ ")^2),--($D$2:$D$" ++
        toString ((loadA input).length + 1) ++ "=\"Yes\"))/(SUMPRODUCT(--($D$2:$D$" ++
        toString ((loadA input).length + 1) ++ "=\"Yes\"))-1))" ∧
    avgRowOf input < stdevRowOf input := by
  constructor
  · rw [stdevFormulaA, avgRowOf_eq, sub_one_eq]
  · simp [stdevRowOf]

/-- Claim C3 (code bug): the load stripping removes only rows whose
identifier is AVG, so the STDEV summary row written by a previous run
survives reloading as a data row: the second run always has one data row
more than the first, never the same count. The concrete conjunct shows the
reloaded identifier column for the two record input. -/
theorem rerun_keeps_stdev_row (input : List RecordA) :
    (reloadIdsA (outputIdsA input)).length = (loadA input).length + 1 ∧
    reloadIdsA (outputIdsA rowsTwoIds) = ["1", "2", "STDEV"] := by
  constructor
  · rw [outputIdsA, reloadIdsA, List.filter_append]
    have h1 : ∀ s ∈ (loadA input).map (fun r => r.id), (s != "AVG") = true := by
      intro s hs
      obtain ⟨r, hr, hrs⟩ := List.mem_map.mp hs
      have h2 := (List.mem_filter.mp hr).2
      rw [← hrs]
      exact h2
    rw [List.filter_eq_self.mpr h1]
    have h3 : List.filter (fun s => s != "AVG") ["AVG", "STDEV"] = ["STDEV"] := rfl
    rw [h3, List.length_append, List.length_map]
    rfl
  · rfl

/-- Claim C4 counterexample: the identifier avg normalizes to AVG, so by the
claim the row should be discarded by both variants, but variant A keeps it:
its load filters on the verbatim string AVG only. -/
theorem avg_strip_counterexample :
    normalizeId "avg" = "AVG" ∧ loadA [lowercaseAvgRecord] = [lowercaseAvgRecord] :=
  ⟨rfl, rfl⟩

/-- Claim C4 amended: variant B discards exactly the rows whose trimmed,
upper cased identifier is AVG, while variant A discards exactly the rows
whose identifier equals AVG verbatim; in each variant the output data row
count is the input count minus the rows matched by that variant own
predicate. -/
theorem avg_strip_amended (rowsA : List RecordA) (idsB : List String)
    (r : RecordA) (s : String) :
    (loadA rowsA).length + (rowsA.filter (fun x => x.id == "AVG")).length = rowsA.length ∧
    (stripB idsB).length + (idsB.filter (fun x => normalizeId x == "AVG")).length = idsB.length ∧
    (r ∈ loadA rowsA ↔ r ∈ rowsA ∧ ¬(r.id = "AVG")) ∧
    (s ∈ stripB idsB ↔ s ∈ idsB ∧ ¬(normalizeId s = "AVG")) := by
  refine ⟨?_, ?_, ?_, ?_⟩
  · have h := length_filter_add_compl (fun x : RecordA => x.id == "AVG") rowsA
    simp only [loadA, bne]
    omega
  · have h := length_filter_add_compl (fun x : String => normalizeId x == "AVG") idsB
    simp only [stripB, bne]
    omega
  · simp [loadA, List.mem_filter]
  · simp [stripB, List.mem_filter]

/-- Claim C5: the Inclusion Flag of a record is false exactly when its
identifier occurs in the exclusion list (true otherwise, the empty list
included), and appending an exclusion identifier that matches no record
produces no error and leaves every flag unchanged. -/
theorem inclusion_flag_spec (rows : List RecordA) (excluded : List String)
    (x : String) (hx : ∀ r ∈ rows, r.id ≠ x) :
    computeFlags rows excluded = rows.map (fun r => !(excluded.contains r.id)) ∧
    computeFlags rows (excluded ++ [x]) = computeFlags rows excluded := by
  refine ⟨computeFlags_eq rows excluded, ?_⟩
  rw [computeFlags_eq, computeFlags_eq]
  apply List.map_congr_left
  intro r hr
  have hne : (r.id == x) = false := beq_eq_false_iff_ne.mpr (hx r hr)
  simp [List.contains_cons, hne]
  intro _
  exact hx r hr

/-- Witness for claim C5: identifiers 1 and 8, exclusion list [8], unmatched
exclusion identifier 99. -/
theorem inclusion_flag_spec_witness :
    computeFlags rowsOneEight ["8"] = [true, false] ∧
    computeFlags rowsOneEight (["8"] ++ ["99"]) = computeFlags rowsOneEight ["8"] := by
  have h := inclusion_flag_spec rowsOneEight ["8"] "99" (by decide)
  exact ⟨h.1.trans rfl, h.2⟩

/-- Claim C6: in variant B every data cell outside the identifier column 0
and toggle column 1 is rewritten as IF(own row toggle cell = 1, 0, original
literal), where a string original is quoted, a missing original becomes the
neutral 0 and a number prints literally; columns 0 and 1 receive no
formula; the IF denotes 0 when the toggle is 1 and the original literal
when the toggle is 0. -/
theorem toggle_formula_spec (rowIdx : Nat) (row : List CellB) (c : Nat)
    (v : CellB) (s : String) (hc : 2 ≤ c) (hv : row.get? c = some v) :
    (c, "=IF($B" ++ toString (rowIdx + 2) ++ "=1, 0, " ++ cellLit v ++ ")")
        ∈ rewriteRowB (rowIdx + 2) row ∧
    (0, s) ∉ rewriteRowB (rowIdx + 2) row ∧
    (1, s) ∉ rewriteRowB (rowIdx + 2) row ∧
    denoteIf 1 (origAsLit v) = CellB.num 0 ∧
    denoteIf 0 (origAsLit v) = origAsLit v := by
  refine ⟨?_, ?_, ?_, rfl, rfl⟩
  · have hmem := rewriteCells_mem (rowIdx + 2) row 0 c v hv (by omega)
    rw [ifFormulaB_eq_lit] at hmem
    simpa [rewriteRowB] using hmem
  · intro h
    have := rewriteCells_ge_two (rowIdx + 2) row 0 0 s h
    omega
  · intro h
    have := rewriteCells_ge_two (rowIdx + 2) row 0 1 s h
    omega

/-- Witness for claim C6: sheet row 2 of the sample row, numeric cell 95 at
column index 2. -/
theorem toggle_formula_spec_witness :
    ((2 : Nat), "=IF($B2=1, 0, 95)") ∈ rewriteRowB 2 sampleRowB ∧
    ((0 : Nat), "x") ∉ rewriteRowB 2 sampleRowB ∧
    ((1 : Nat), "x") ∉ rewriteRowB 2 sampleRowB ∧
    denoteIf 1 (origAsLit (CellB.num 95)) = CellB.num 0 ∧
    denoteIf 0 (origAsLit (CellB.num 95)) = origAsLit (CellB.num 95) :=
  toggle_formula_spec 0 sampleRowB 2 (CellB.num 95) "x" (by omega) rfl

/-- Claim C7 counterexample: with the sample schema the toggle column sits
at index 1 and still receives a summary AVERAGEIF formula, as do the date
column at index 2 and the label column at index 3: the loop emits one
formula for every column except the identifier, not only for numeric
columns. -/
theorem summary_formula_counterexample :
    (insertToggleSchema sampleSchemaB).get? 1 = some ColType.toggle ∧
    (insertToggleSchema sampleSchemaB).get? 2 = some ColType.date ∧
    (1, avgFormulaB 10 1) ∈
      summaryFormulasB 10 (insertToggleSchema sampleSchemaB).length ∧
    (summaryFormulasB 10 (insertToggleSchema sampleSchemaB).length).map Prod.fst =
      [1, 2, 3, 4] := by
  refine ⟨rfl, rfl, ?_, ?_⟩
  · exact List.mem_cons_self _ _
  · rfl

/-- Claim C7 amended: the summary loop emits exactly one formula per column
index from 1 to numCols - 1 — toggle, date and label columns included — and
none for the identifier column 0; each is the AVERAGEIF over that column
from row 2 to row numRows + 1 with criterion not equal to 0, recomputed
from the row count of the run. -/
theorem summary_formula_amended (numRows numCols c : Nat) (s : String) :
    ((c, s) ∈ summaryFormulasB numRows numCols ↔
      1 ≤ c ∧ c < numCols ∧ s = avgFormulaB numRows c) ∧
    (summaryFormulasB numRows numCols).map Prod.fst = List.range' 1 (numCols - 1) ∧
    ((summaryFormulasB numRows numCols).map Prod.fst).Nodup := by
  have hmap : (summaryFormulasB numRows numCols).map Prod.fst = List.range' 1 (numCols - 1) := by
    rw [summaryFormulasB, pyRange, List.map_map]
    exact List.map_id _
  refine ⟨?_, hmap, ?_⟩
  · constructor
    · intro h
      obtain ⟨a, ha, hpair⟩ := List.mem_map.mp h
      obtain ⟨hac, has⟩ := Prod.mk.injEq _ _ _ _ |>.mp hpair
      obtain ⟨h1, h2⟩ := List.mem_range'_1.mp (by simpa [pyRange] using ha)
      subst hac
      exact ⟨h1, by omega, has.symm⟩
    · rintro ⟨h1, h2, rfl⟩
      apply List.mem_map.mpr
      refine ⟨c, ?_, rfl⟩
      rw [pyRange]
      exact List.mem_range'_1.mpr ⟨h1, by omega⟩
  · rw [hmap]
    exact List.nodup_range' _ _

/-- Claim C8: the toggle column named I is inserted immediately after the
identifier (first) column and its cell is the literal 0 in every data
row. -/
theorem toggle_column_spec (c0 : String) (cs : List String) (v : CellB) (vs : List CellB) :
    insertToggleHeaders (c0 :: cs) = c0 :: "I" :: cs ∧
    insertToggleRow (v :: vs) = v :: CellB.num 0 :: vs ∧
    (insertToggleRow (v :: vs)).get? 1 = some (CellB.num 0) :=
  ⟨rfl, rfl, rfl⟩

/-- Claim C9: when the input path holds no file both variants fail with a
NotFound error carrying a human readable message, produce no output and do
not continue processing. -/
theorem missing_input_spec (fs : FileSys) (path : String) (out : List String)
    (h : fs path = none) :
    runMainA fs path =
      Except.error (RunError.NotFound ("Error: Could not find file " ++ path)) ∧
    runMainB fs path =
      Except.error (RunError.NotFound ("Error: The file " ++ path ++ " was not found.")) ∧
    runMainA fs path ≠ Except.ok out ∧
    runMainB fs path ≠ Except.ok out := by
  have hA : runMainA fs path =
      Except.error (RunError.NotFound ("Error: Could not find file " ++ path)) := by
    rw [runMainA, h]
  have hB : runMainB fs path =
      Except.error (RunError.NotFound ("Error: The file " ++ path ++ " was not found.")) := by
    rw [runMainB, h]
  refine ⟨hA, hB, ?_, ?_⟩
  · rw [hA]
    intro hcontra
    exact Except.noConfusion hcontra
  · rw [hB]
    intro hcontra
    exact Except.noConfusion hcontra

/-- Witness for claim C9: the empty file system and the path data.csv. -/
theorem missing_input_spec_witness :
    runMainA emptyFileSys "data.csv" =
      Except.error (RunError.NotFound ("Error: Could not find file " ++ "data.csv")) ∧
    runMainB emptyFileSys "data.csv" =
      Except.error (RunError.NotFound ("Error: The file " ++ "data.csv" ++ " was not found.")) ∧
    runMainA emptyFileSys "data.csv" ≠ Except.ok [] ∧
    runMainB emptyFileSys "data.csv" ≠ Except.ok [] :=
  missing_input_spec emptyFileSys "data.csv" [] rfl

/-- Claim C10: on a successful variant A run the reported processed count is
the number of data rows left after AVG stripping, and the reported excluded
count plus the reported included count equals the processed count: every
record is counted once, by the boolean value of its Inclusion Flag. -/
theorem success_summary_spec (input : List RecordA) (excluded : List String) :
    (runSummaryA input excluded).1 = (loadA input).length ∧
    (runSummaryA input excluded).2.1 + (runSummaryA input excluded).2.2 =
      (runSummaryA input excluded).1 := by
  refine ⟨rfl, ?_⟩
  have h := length_filter_add_compl (fun b : Bool => b) (computeFlags (loadA input) excluded)
  have hl : (computeFlags (loadA input) excluded).length = (loadA input).length := by
    rw [computeFlags_eq, List.length_map]
  simp only [runSummaryA]
  omega

end GolfStats
